import Mathlib

/-!
Verification development for the prometheus-mcp-server repository
(`src/prometheus_mcp_server/server.py`).

The Python source is shallowly embedded below:
* JSON values are the inductive `Json` (JSON numbers are modelled as `Int`;
  no claim involves fractional numbers).
* Python truthiness of the optional configuration strings (all constructed
  from `os.environ.get(..., "")`, hence always strings) is non-emptiness.
* The network is an explicit input `NetResult` describing the outcome of the
  single `requests.get` call a request makes; exceptions are modelled as
  `Except` values.
* The structured logger only records; it is omitted (it does not affect any
  return value).
-/

namespace PrometheusMcp

/-- JSON values, as produced by `response.json()`.  Numbers are modelled as
integers (no claim concerns fractional values). -/
inductive Json where
  | null
  | bool (b : Bool)
  | num (n : Int)
  | str (s : String)
  | arr (xs : List Json)
  | obj (fields : List (String × Json))

/-- Key lookup in the field list of a JSON object (Python `dict` access;
object keys are assumed unique, as in a JSON-decoded `dict`). -/
def lookupField : List (String × Json) → String → Option Json
  | [], _ => none
  | (k, v) :: fs, key => if k = key then some v else lookupField fs key

/-- `result["key"]` / `result.get("key")` on a decoded JSON value.  On a
non-object this returns `none` (in Python, subscripting a non-dict raises
`TypeError`; both the missing-key and non-dict cases flow into the generic
`except Exception` handler of the source, so they are merged here). -/
def Json.getField : Json → String → Option Json
  | .obj fs, k => lookupField fs k
  | _, _ => none

mutual
/-- Python `repr()` of a JSON-decoded value (used inside `str()` of
containers). -/
def pyRepr : Json → String
  | .null => "None"
  | .bool true => "True"
  | .bool false => "False"
  | .num n => toString n
  | .str s => "\x27" ++ s ++ "\x27"
  | .arr xs => "[" ++ String.intercalate ", " (pyReprList xs) ++ "]"
  | .obj fs => "\x7b" ++ String.intercalate ", " (pyReprFields fs) ++ "\x7d"

/-- `repr` of each element of a list. -/
def pyReprList : List Json → List String
  | [] => []
  | x :: xs => pyRepr x :: pyReprList xs

/-- `repr` of each `key: value` item of a dict. -/
def pyReprFields : List (String × Json) → List String
  | [] => []
  | f :: fs => ("\x27" ++ f.1 ++ "\x27: " ++ pyRepr f.2) :: pyReprFields fs
end

/-- Python `str()` of a JSON-decoded value, as used by f-string
interpolation (`f"{value}"`). -/
def pyStr : Json → String
  | .str s => s
  | j => pyRepr j

/-- Python truthiness of a JSON-decoded value (`if value:`). -/
def pyTruthy : Json → Bool
  | .null => false
  | .bool b => b
  | .num n => n != 0
  | .str s => s ≠ ""
  | .arr xs => !xs.isEmpty
  | .obj fs => !fs.isEmpty

/-- Python `str()` of a `bool` (`f"{True}"` is `"True"`). -/
def pyBool (b : Bool) : String := if b then "True" else "False"

/-- Python `len()` of a JSON-decoded value; non-sized values raise
`TypeError` (modelled as `.error`). -/
def pyLen : Json → Except String Nat
  | .arr xs => .ok xs.length
  | .obj fs => .ok fs.length
  | .str s => .ok s.length
  | _ => .error "TypeError: object has no len"

/-- Iterating a JSON-decoded value and rendering each element with `str()`
(`f"- {metric}" for metric in data`); lists iterate elements, dicts iterate
keys, strings iterate characters, anything else raises `TypeError`. -/
def pyIterStrs : Json → Except String (List String)
  | .arr xs => .ok (xs.map pyStr)
  | .obj fs => .ok (fs.map (·.1))
  | .str s => .ok (s.data.map (fun c => String.mk [c]))
  | _ => .error "TypeError: object is not iterable"

/-- Python `str(KeyError(k))`, which is the quoted key. -/
def keyErrStr (k : String) : String := "\x27" ++ k ++ "\x27"

mutual
/-- `jsonDumps` models `json.dumps(value, indent=2)` up to whitespace and
string escaping, neither of which any claim depends on. -/
def jsonDumps : Json → String
  | .null => "null"
  | .bool true => "true"
  | .bool false => "false"
  | .num n => toString n
  | .str s => "\"" ++ s ++ "\""
  | .arr xs => "[" ++ String.intercalate ", " (jsonDumpsList xs) ++ "]"
  | .obj fs => "\x7b" ++ String.intercalate ", " (jsonDumpsFields fs) ++ "\x7d"

def jsonDumpsList : List Json → List String
  | [] => []
  | x :: xs => jsonDumps x :: jsonDumpsList xs

def jsonDumpsFields : List (String × Json) → List String
  | [] => []
  | f :: fs => ("\"" ++ f.1 ++ "\": " ++ jsonDumps f.2) :: jsonDumpsFields fs
end

/-- The `PrometheusConfig` dataclass as constructed at module load: every
credential field comes from `os.environ.get(name, "")`, so all fields are
strings and Python truthiness is non-emptiness.  `mcp_transport` models
`mcp_server_config.mcp_server_transport` (`none` models
`mcp_server_config = None`). -/
structure PrometheusConfig where
  url : String
  username : String
  password : String
  token : String
  org_id : String
  mcp_transport : Option String

/-- Result of `get_prometheus_auth`: a headers dict (token case), a
`requests.auth.HTTPBasicAuth` object, or `None`. -/
inductive Auth where
  | headerAuth (hs : List (String × String))
  | basicAuth (username password : String)
  | noAuth

/-- `get_prometheus_auth` (server.py lines 413-419). -/
def get_prometheus_auth (config : PrometheusConfig) : Auth :=
  if config.token ≠ "" then
    .headerAuth [("Authorization", "Bearer " ++ config.token)]
  else if config.username ≠ "" ∧ config.password ≠ "" then
    .basicAuth config.username config.password
  else
    .noAuth

/-- Query parameters passed to `requests.get` (`params=` keyword):
a JSON-valued dict or `None`. -/
abbrev Params := List (String × Json)

/-- The outbound HTTP GET exactly as handed to `requests.get`:
URL, `params=`, `headers=`, and `auth=` (basic credentials or `None`). -/
structure OutboundRequest where
  url : String
  params : Option Params
  headers : List (String × String)
  basicAuth : Option (String × String)

/-- Outcome of the single `requests.get` call: the raised
`requests.exceptions` exception, or a response with an HTTP status code and
a body that either parses as JSON or raises `json.JSONDecodeError`
(carrying the decoder's message). -/
inductive NetResult where
  | timeout
  | connectionError
  | otherRequestException (msg : String)
  | response (statusCode : Nat) (body : Except String Json)

/-- The errors `make_prometheus_request` raises (all are `ValueError` in the
source; the constructor is the failure kind, `PromError.message` the exact
message string).  `apiError` and `invalidJson` model the messages of the
handlers at lines 457 and 485: the former is re-wrapped into `unexpected`
before it escapes (the raise sits inside the `try` suite) and the latter
is unreachable because `requests.exceptions.JSONDecodeError` is already a
`RequestException`; both are kept so the divergence from the spec can be
stated. -/
inductive PromError where
  | configMissing
  | apiError (msg : String)
  | timeout (url : String)
  | connectionError (url : String)
  | authFailed
  | forbidden
  | httpError (status : Nat)
  | requestFailed (msg : String)
  | invalidJson (msg : String)
  | unexpected (msg : String)

/-- The exact `ValueError` message strings of server.py lines 425-490. -/
def PromError.message : PromError → String
  | .configMissing =>
      "Prometheus configuration is missing. Please set PROMETHEUS_URL environment variable."
  | .apiError m => "Prometheus API error: " ++ m
  | .timeout url =>
      "Prometheus server at " ++ url ++ " is not responding (timeout after 30s)"
  | .connectionError url => "Cannot connect to Prometheus server at " ++ url
  | .authFailed => "Authentication failed. Please check your Prometheus credentials."
  | .forbidden => "Access forbidden. Please check your Prometheus permissions."
  | .httpError status => "HTTP " ++ toString status ++ " error from Prometheus server"
  | .requestFailed m => "Request failed: " ++ m
  | .invalidJson m => "Invalid JSON response from Prometheus: " ++ m
  | .unexpected m => "Unexpected error: " ++ m

/-- `url.rstrip("/")`: drop every trailing slash. -/
def rstripSlash (s : String) : String :=
  String.mk ((s.data.reverse.dropWhile (fun c => c = '/')).reverse)

/-- Python `value == "some string"` on a JSON-decoded value: true exactly
when the value is that string. -/
def Json.eqStr (j : Json) (s : String) : Bool :=
  match j with
  | .str t => t = s
  | _ => false

/-- Envelope handling of server.py lines 454-465: check the top-level
`status` field, extract the embedded error message (or `"Unknown error"`),
and on success return `result["data"]`.  All of this code sits inside the
`try` suite, so every exception it raises is caught again by the same
statement's handlers: the missing-key `KeyError`s fall to the final
`except Exception` (line 488) and come out wrapped as
`"Unexpected error: {str(e)}"`, and so does the
`ValueError("Prometheus API error: ...")` raised at line 457 for a
non-success envelope (no earlier clause matches a plain `ValueError`), so
the caller observes `"Unexpected error: Prometheus API error: ..."`. -/
def handleEnvelope (result : Json) : Except PromError Json :=
  match result.getField "status" with
  | none => .error (.unexpected (keyErrStr "status"))
  | some st =>
    if !st.eqStr "success" then
      .error (.unexpected ("Prometheus API error: "
        ++ (match result.getField "error" with
            | some e => pyStr e
            | none => "Unknown error")))
    else
      match result.getField "data" with
      | some d => .ok d
      | none => .error (.unexpected (keyErrStr "data"))

/-- What one call of `make_prometheus_request` did: its return value or
raised error, whether a network request was attempted, and the outbound
request handed to `requests.get` (if any). -/
structure RequestTrace where
  result : Except PromError Json
  attempted : Bool
  request : Option OutboundRequest

/-- `make_prometheus_request` (server.py lines 421-490) over an explicit
network outcome `net`.  `raise_for_status` raises `HTTPError` exactly for
status codes ≥ 400, and the `HTTPError` handler precedes the generic
`RequestException` handler.  A body that fails to parse makes
`response.json()` raise `requests.exceptions.JSONDecodeError`, which is a
`RequestException` subclass (via `InvalidJSONError`, since requests 2.27),
so it is caught by the `except requests.exceptions.RequestException`
clause at line 482 and surfaces as `"Request failed: {str(e)}"`; the
dedicated `except json.JSONDecodeError` clause at line 485 is unreachable
for this path. -/
def make_prometheus_request (config : PrometheusConfig) (endpoint : String)
    (params : Option Params) (net : NetResult) : RequestTrace :=
  if config.url = "" then
    { result := .error .configMissing, attempted := false, request := none }
  else
    let url := rstripSlash config.url ++ "/api/v1/" ++ endpoint
    let auth := get_prometheus_auth config
    let headers : List (String × String) :=
      [("User-Agent", "prometheus-mcp-server/1.2.11")]
    -- Token auth is passed via headers; auth is cleared for requests.get
    let hb : List (String × String) × Option (String × String) :=
      match auth with
      | .headerAuth hs => (headers ++ hs, none)
      | .basicAuth u p => (headers, some (u, p))
      | .noAuth => (headers, none)
    -- Add OrgID header if specified
    let headers := if config.org_id ≠ "" then
        hb.1 ++ [("X-Scope-OrgID", config.org_id)]
      else hb.1
    let req : OutboundRequest :=
      { url := url, params := params, headers := headers, basicAuth := hb.2 }
    let result : Except PromError Json :=
      match net with
      | .timeout => .error (.timeout config.url)
      | .connectionError => .error (.connectionError config.url)
      | .otherRequestException m => .error (.requestFailed m)
      | .response statusCode body =>
        if 400 ≤ statusCode then
          if statusCode = 401 then .error .authFailed
          else if statusCode = 403 then .error .forbidden
          else .error (.httpError statusCode)
        else
          match body with
          -- requests.exceptions.JSONDecodeError is a RequestException,
          -- so the line-482 handler catches it first (line 485 is dead)
          | .error m => .error (.requestFailed m)
          | .ok parsed => handleEnvelope parsed
    { result := result, attempted := true, request := some req }

/-! ## The `limit` parameter validator -/

/-- The whitespace characters stripped by Python `str.strip()` (the ASCII
set; no claim involves non-ASCII whitespace). -/
def isPySpace (c : Char) : Bool :=
  c = ' ' || c = '\t' || c = '\n' || c = '\r' || c = Char.ofNat 11 || c = Char.ofNat 12

/-- `s.strip()` on the character list: drop whitespace from both ends. -/
def stripList (l : List Char) : List Char :=
  ((l.dropWhile isPySpace).reverse.dropWhile isPySpace).reverse

/-- Python `s.strip()`. -/
def pyStrip (s : String) : String := String.mk (stripList s.data)

/-- Numeric value of a run of decimal digits. -/
def digitsVal (l : List Char) : Int :=
  l.foldl (fun a c => 10 * a + ((c.toNat : Int) - 48)) 0

/-- Peel one optional leading `+`/`-`, returning the remainder and the
sign. -/
def splitSign (l : List Char) : List Char × Int :=
  match l with
  | [] => ([], 1)
  | c :: rest =>
    if c = '+' then (rest, 1)
    else if c = '-' then (rest, -1)
    else (c :: rest, 1)

/-- Python `int(t)` on an already stripped string: an optional single sign
followed by one or more decimal digits (the `int` grammar restricted to the
forms the spec admits: no underscores, no non-ASCII digits). -/
def pyInt? (l : List Char) : Option Int :=
  let sd := splitSign l
  if !sd.1.isEmpty && sd.1.all Char.isDigit then some (sd.2 * digitsVal sd.1)
  else none

/-- The loosely-typed `limit` argument: absent, an integer, or a string. -/
inductive LimitValue where
  | none
  | int (n : Int)
  | str (s : String)

/-- Modelled from the spec: `validate_limit_parameter` (spec §4.1) is code
of this repository that is missing from `src/` — only its test suite
(`tests/test_validate_limit_parameter.py`) is present.  Per the spec:
`None` passes through, integers are returned unchanged (negative and zero
included), strings are stripped and parsed as an optional sign followed by
one or more decimal digits, and every other string fails with an
InvalidParameter (`ValueError`) whose message embeds the original
unstripped value and states that it must be a valid integer (message shape
taken from the repository's own tests). -/
def validate_limit_parameter : LimitValue → Except String (Option Int)
  | .none => .ok Option.none
  | .int n => .ok (some n)
  | .str s =>
    match pyInt? (stripList s.data) with
    | some v => .ok (some v)
    | Option.none =>
      .error ("Invalid limit value \x27" ++ s ++ "\x27: must be a valid integer")

/-- Left-to-right scan for the spec's accepted-string pattern
`^\s*[+-]?\d+\s*$`: skip leading whitespace, take an optional single sign,
then require one or more decimal digits followed by whitespace only. -/
def scanMatches (l : List Char) : Bool :=
  let afterSign := (splitSign (l.dropWhile isPySpace)).1
  !(afterSign.takeWhile Char.isDigit).isEmpty
    && (afterSign.dropWhile Char.isDigit).all isPySpace

/-- The integer a pattern match denotes: the sign times the digit run. -/
def scanValue (l : List Char) : Int :=
  let sd := splitSign (l.dropWhile isPySpace)
  sd.2 * digitsVal (sd.1.takeWhile Char.isDigit)

/-- Independent matcher for the spec's accepted-string pattern
`^\s*[+-]?\d+\s*$`, scanning the string left to right (it never strips or
reverses, unlike the strip-then-parse implementation path). -/
def matchesLimitPattern (s : String) : Bool := scanMatches s.data

/-- The integer value the pattern denotes. -/
def limitPatternValue (s : String) : Int := scanValue s.data

/-! ## Tool registry and dispatcher -/

/-- A tool declaration from `list_tools`: its name, its schema's required
parameters, and its declared-but-optional parameters. -/
structure ToolDef where
  name : String
  required : List String
  optional : List String

/-- `list_tools` (server.py lines 28-117): the registry the server
advertises. -/
def list_tools : List ToolDef :=
  [ { name := "health_check", required := [], optional := [] },
    { name := "execute_query", required := ["query"], optional := ["time"] },
    { name := "execute_range_query",
      required := ["query", "start", "end", "step"], optional := [] },
    { name := "list_metrics", required := [], optional := [] },
    { name := "get_metric_metadata", required := ["metric"], optional := [] },
    { name := "get_targets", required := [], optional := [] } ]

/-- The advertised tool names. -/
def toolNames : List String := list_tools.map (·.name)

/-- The `arguments` dict of a tool call. -/
abbrev Args := List (String × Json)

/-- `arguments[key]` / `arguments.get(key)`. -/
def getArg (args : Args) (k : String) : Option Json := lookupField args k

/-- What a tool handler returned: the `TextContent` texts handed back to
the RPC framework, plus the Prometheus request the handler issued, if
any. -/
structure ToolOutcome where
  texts : List String
  request : Option OutboundRequest

/-- The `health_data` dictionary built by the health_check branch (the
fields the claims concern), plus whether a connectivity probe was
attempted and the probe request. -/
structure HealthData where
  status : String
  checksPrometheus : String
  urlConfigured : Bool
  authConfigured : Bool
  orgConfigured : Bool
  transport : String
  attempted : Bool
  request : Option OutboundRequest

/-- `bool(config.url)` (line 132). -/
def prometheusUrlConfigured (config : PrometheusConfig) : Bool := config.url ≠ ""

/-- `bool(config.username or config.token)` (line 133). -/
def authenticationConfigured (config : PrometheusConfig) : Bool :=
  config.username ≠ "" || config.token ≠ ""

/-- `bool(config.org_id)` (line 134). -/
def orgIdConfigured (config : PrometheusConfig) : Bool := config.org_id ≠ ""

/-- `call_tool`, health_check branch (lines 123-159): build `health_data`;
when a URL is configured, probe connectivity with an instant query for
`up` at the current unix time `timeStr` and degrade rather than raise on
failure; when not, report unhealthy/not_configured without any network
call. -/
def health_check (config : PrometheusConfig) (net : NetResult)
    (timeStr : String) : HealthData :=
  let urlConfigured : Bool := prometheusUrlConfigured config
  let authConfigured : Bool := authenticationConfigured config
  let orgConfigured : Bool := orgIdConfigured config
  let transport := config.mcp_transport.getD "stdio"
  if urlConfigured then
    let tr := make_prometheus_request config "query"
      (some [("query", Json.str "up"), ("time", Json.str timeStr)]) net
    match tr.result with
    | .ok _ =>
      { status := "healthy", checksPrometheus := "healthy",
        urlConfigured := urlConfigured, authConfigured := authConfigured,
        orgConfigured := orgConfigured, transport := transport,
        attempted := tr.attempted, request := tr.request }
    | .error _ =>
      { status := "degraded", checksPrometheus := "unhealthy",
        urlConfigured := urlConfigured, authConfigured := authConfigured,
        orgConfigured := orgConfigured, transport := transport,
        attempted := tr.attempted, request := tr.request }
  else
    { status := "unhealthy", checksPrometheus := "not_configured",
      urlConfigured := urlConfigured, authConfigured := authConfigured,
      orgConfigured := orgConfigured, transport := transport,
      attempted := false, request := none }

/-- The two `TextContent` blocks the health_check branch returns (lines
161-170); `ts` is the ISO-rendered current UTC time. -/
def healthTexts (h : HealthData) (ts : String) : List String :=
  [ "Service: prometheus-mcp-server\nStatus: " ++ h.status
      ++ "\nVersion: 1.2.11\nTimestamp: " ++ ts,
    "Prometheus URL configured: " ++ pyBool h.urlConfigured
      ++ "\nAuthentication configured: " ++ pyBool h.authConfigured
      ++ "\nOrg ID configured: " ++ pyBool h.orgConfigured ]

/-- Response shaping of the execute_query branch (lines 193-209), applied
to the outcome of `make_prometheus_request`; a raised error is caught and
rendered by the branch's `except` (lines 211-218). -/
def executeQueryTexts (ts : String) (query : Json)
    (result : Except PromError Json) : List String :=
  match result with
  | .error e => ["Query execution failed: " ++ e.message]
  | .ok data =>
    match data.getField "result" with
    | Option.none => ["Query execution failed: " ++ keyErrStr "result"]
    | some res =>
      let result_count : Nat := match res with | .arr xs => xs.length | _ => 1
      match data.getField "resultType" with
      | Option.none => ["Query execution failed: " ++ keyErrStr "resultType"]
      | some rt =>
        [ "Query: " ++ pyStr query ++ "\nResult Type: " ++ pyStr rt
            ++ "\nResults Count: " ++ toString result_count
            ++ "\nTimestamp: " ++ ts,
          "Results: " ++ jsonDumps res ]

/-- `call_tool`, execute_query branch (lines 181-218).  A missing `query`
key raises `KeyError`, caught by the branch's `except`; a falsy `time`
argument is not forwarded. -/
def executeQueryBranch (config : PrometheusConfig) (net : NetResult)
    (ts : String) (args : Args) : ToolOutcome :=
  match getArg args "query" with
  | Option.none =>
    { texts := ["Query execution failed: " ++ keyErrStr "query"], request := none }
  | some query =>
    let params : Params :=
      [("query", query)] ++
        (match getArg args "time" with
         | some t => if pyTruthy t then [("time", t)] else []
         | Option.none => [])
    let tr := make_prometheus_request config "query" (some params) net
    { texts := executeQueryTexts ts query tr.result, request := tr.request }

/-- Response shaping of the execute_range_query branch (lines 237-253),
with the raised errors caught and rendered (lines 255-262). -/
def executeRangeQueryTexts (ts : String) (query start endv step : Json)
    (result : Except PromError Json) : List String :=
  match result with
  | .error e => ["Range query execution failed: " ++ e.message]
  | .ok data =>
    match data.getField "result" with
    | Option.none => ["Range query execution failed: " ++ keyErrStr "result"]
    | some res =>
      let result_count : Nat := match res with | .arr xs => xs.length | _ => 1
      match data.getField "resultType" with
      | Option.none => ["Range query execution failed: " ++ keyErrStr "resultType"]
      | some rt =>
        [ "Query: " ++ pyStr query ++ "\nStart: " ++ pyStr start
            ++ "\nEnd: " ++ pyStr endv ++ "\nStep: " ++ pyStr step
            ++ "\nResult Type: " ++ pyStr rt
            ++ "\nResults Count: " ++ toString result_count
            ++ "\nTimestamp: " ++ ts,
          "Results: " ++ jsonDumps res ]

/-- `call_tool`, execute_range_query branch (lines 220-262).  The four
required arguments are read in source order, so the first missing one
raises. -/
def executeRangeQueryBranch (config : PrometheusConfig) (net : NetResult)
    (ts : String) (args : Args) : ToolOutcome :=
  match getArg args "query" with
  | Option.none =>
    { texts := ["Range query execution failed: " ++ keyErrStr "query"], request := none }
  | some query =>
    match getArg args "start" with
    | Option.none =>
      { texts := ["Range query execution failed: " ++ keyErrStr "start"], request := none }
    | some start =>
      match getArg args "end" with
      | Option.none =>
        { texts := ["Range query execution failed: " ++ keyErrStr "end"], request := none }
      | some endv =>
        match getArg args "step" with
        | Option.none =>
          { texts := ["Range query execution failed: " ++ keyErrStr "step"], request := none }
        | some step =>
          let params : Params :=
            [("query", query), ("start", start), ("end", endv), ("step", step)]
          let tr := make_prometheus_request config "query_range" (some params) net
          { texts := executeRangeQueryTexts ts query start endv step tr.result,
            request := tr.request }

/-- Response shaping of the list_metrics branch (lines 268-279), with the
raised errors caught and rendered (lines 281-288). -/
def listMetricsTexts (ts : String) (result : Except PromError Json) : List String :=
  match result with
  | .error e => ["Failed to list metrics: " ++ e.message]
  | .ok data =>
    match pyLen data with
    | .error m => ["Failed to list metrics: " ++ m]
    | .ok n =>
      match pyIterStrs data with
      | .error m => ["Failed to list metrics: " ++ m]
      | .ok items =>
        [ "Total metrics available: " ++ toString n ++ "\nTimestamp: " ++ ts,
          "All available metrics:\n"
            ++ String.intercalate "\n" (items.map (fun m => "- " ++ m)) ]

/-- `call_tool`, list_metrics branch (lines 264-288).  The branch reads no
arguments at all and always calls the endpoint with the default
`params=None`. -/
def listMetricsBranch (config : PrometheusConfig) (net : NetResult)
    (ts : String) : ToolOutcome :=
  let tr := make_prometheus_request config "label/__name__/values" none net
  { texts := listMetricsTexts ts tr.result, request := tr.request }

/-- Response shaping of the get_metric_metadata branch (lines 296-307),
with the raised errors caught and rendered (lines 310-317). -/
def getMetricMetadataTexts (ts : String) (metric : Json)
    (result : Except PromError Json) : List String :=
  match result with
  | .error e => ["Failed to get metric metadata: " ++ e.message]
  | .ok data =>
    match data.getField "metadata" with
    | Option.none => ["Failed to get metric metadata: " ++ keyErrStr "metadata"]
    | some md =>
      match pyLen md with
      | .error m => ["Failed to get metric metadata: " ++ m]
      | .ok n =>
        [ "Metric: " ++ pyStr metric ++ "\nMetadata entries: "
            ++ toString n ++ "\nTimestamp: " ++ ts,
          "Metadata: " ++ jsonDumps md ]

/-- `call_tool`, get_metric_metadata branch (lines 290-317). -/
def getMetricMetadataBranch (config : PrometheusConfig) (net : NetResult)
    (ts : String) (args : Args) : ToolOutcome :=
  match getArg args "metric" with
  | Option.none =>
    { texts := ["Failed to get metric metadata: " ++ keyErrStr "metric"],
      request := none }
  | some metric =>
    let tr := make_prometheus_request config "metadata"
      (some [("metric", metric)]) net
    { texts := getMetricMetadataTexts ts metric tr.result, request := tr.request }

/-- Response shaping of the get_targets branch (lines 322-345), with the
raised errors caught and rendered (lines 347-354). -/
def getTargetsTexts (ts : String) (result : Except PromError Json) : List String :=
  match result with
  | .error e => ["Failed to get targets: " ++ e.message]
  | .ok data =>
    match data.getField "activeTargets" with
    | Option.none => ["Failed to get targets: " ++ keyErrStr "activeTargets"]
    | some act =>
      match pyLen act with
      | .error m => ["Failed to get targets: " ++ m]
      | .ok active_count =>
        match data.getField "droppedTargets" with
        | Option.none => ["Failed to get targets: " ++ keyErrStr "droppedTargets"]
        | some dr =>
          match pyLen dr with
          | .error m => ["Failed to get targets: " ++ m]
          | .ok dropped_count =>
            [ "Active targets: " ++ toString active_count
                ++ "\nDropped targets: " ++ toString dropped_count
                ++ "\nTotal targets: " ++ toString (active_count + dropped_count)
                ++ "\nTimestamp: " ++ ts,
              "Active targets: " ++ jsonDumps act,
              "Dropped targets: " ++ jsonDumps dr ]

/-- `call_tool`, get_targets branch (lines 319-354). -/
def getTargetsBranch (config : PrometheusConfig) (net : NetResult)
    (ts : String) : ToolOutcome :=
  let tr := make_prometheus_request config "targets" none net
  { texts := getTargetsTexts ts tr.result, request := tr.request }

/-- `call_tool` (lines 119-357): dispatch on the tool name.  Every
registered branch catches its own exceptions and returns texts; an
unrecognized name raises `ValueError(f"Unknown tool: {name}")`, modelled as
`.error`.  `ts` models `datetime.now(timezone.utc).isoformat()` and
`timeStr` models `str(int(time.time()))`. -/
def call_tool (config : PrometheusConfig) (net : NetResult) (ts timeStr : String)
    (name : String) (args : Args) : Except String ToolOutcome :=
  if name = "health_check" then
    let h := health_check config net timeStr
    .ok { texts := healthTexts h ts, request := h.request }
  else if name = "execute_query" then
    .ok (executeQueryBranch config net ts args)
  else if name = "execute_range_query" then
    .ok (executeRangeQueryBranch config net ts args)
  else if name = "list_metrics" then
    .ok (listMetricsBranch config net ts)
  else if name = "get_metric_metadata" then
    .ok (getMetricMetadataBranch config net ts args)
  else if name = "get_targets" then
    .ok (getTargetsBranch config net ts)
  else
    .error ("Unknown tool: " ++ name)

/-- `Except` success test. -/
def isOkE {ε α : Type} : Except ε α → Bool
  | .ok _ => true
  | .error _ => false

/-! ## Sample values used by the concrete witnesses and counterexamples -/

/-- A configuration with only the URL set. -/
def cfgPlain : PrometheusConfig :=
  { url := "http://prom", username := "", password := "", token := "",
    org_id := "", mcp_transport := some "stdio" }

/-- A configuration with both a bearer token and basic credentials set. -/
def cfgTok : PrometheusConfig :=
  { url := "http://prom", username := "alice", password := "secret",
    token := "tok123", org_id := "", mcp_transport := some "stdio" }

/-- A configuration with basic credentials only. -/
def cfgBasic : PrometheusConfig :=
  { url := "http://prom", username := "alice", password := "secret",
    token := "", org_id := "", mcp_transport := some "stdio" }

/-- A configuration with a username but neither password nor token. -/
def cfgUserOnly : PrometheusConfig :=
  { url := "http://prom", username := "alice", password := "",
    token := "", org_id := "", mcp_transport := some "stdio" }

/-- A configuration with an empty URL. -/
def cfgNoUrl : PrometheusConfig :=
  { url := "", username := "", password := "", token := "",
    org_id := "", mcp_transport := some "stdio" }

/-- A successful Prometheus envelope carrying a list. -/
def okEnvelope : Json :=
  Json.obj [("status", Json.str "success"), ("data", Json.arr [Json.str "up"])]

/-- An error envelope with an embedded message. -/
def errEnvelope : Json :=
  Json.obj [("status", Json.str "error"), ("error", Json.str "bad query")]

/-- A success envelope missing its `data` field. -/
def successNoData : Json := Json.obj [("status", Json.str "success")]

/-- A network outcome delivering `okEnvelope` with HTTP 200. -/
def okNet : NetResult := NetResult.response 200 (.ok okEnvelope)

/-- The request `cfgTok` produces for endpoint `query` with no params. -/
def reqTok : OutboundRequest :=
  { url := "http://prom/api/v1/query", params := none,
    headers := [("User-Agent", "prometheus-mcp-server/1.2.11"),
      ("Authorization", "Bearer tok123")],
    basicAuth := none }

/-- The request `cfgBasic` produces for endpoint `query` with no params. -/
def reqBasic : OutboundRequest :=
  { url := "http://prom/api/v1/query", params := none,
    headers := [("User-Agent", "prometheus-mcp-server/1.2.11")],
    basicAuth := some ("alice", "secret") }

/-- The request `cfgUserOnly` produces for endpoint `query`, no params. -/
def reqUserOnly : OutboundRequest :=
  { url := "http://prom/api/v1/query", params := none,
    headers := [("User-Agent", "prometheus-mcp-server/1.2.11")],
    basicAuth := none }

/-! ## Lemmas: whitespace, digits, and the limit-string grammar -/

lemma space_not_digit {c : Char} (h : isPySpace c = true) : c.isDigit = false := by
  simp only [isPySpace, Bool.or_eq_true, decide_eq_true_eq] at h
  rcases h with ((((h | h) | h) | h) | h) | h <;> subst h <;> decide

lemma digit_not_space {c : Char} (h : c.isDigit = true) : isPySpace c = false := by
  cases hs : isPySpace c
  · rfl
  · rw [space_not_digit hs] at h; cases h

lemma digit_ne_plus {c : Char} (h : c.isDigit = true) : c ≠ '+' := by
  intro he; subst he; exact absurd h (by decide)

lemma digit_ne_minus {c : Char} (h : c.isDigit = true) : c ≠ '-' := by
  intro he; subst he; exact absurd h (by decide)

lemma splitSign_cases (t : List Char) :
    (splitSign t = (t, 1) ∧ ∀ c r, t = c :: r → c ≠ '+' ∧ c ≠ '-')
    ∨ (∃ r, t = '+' :: r ∧ splitSign t = (r, 1))
    ∨ (∃ r, t = '-' :: r ∧ splitSign t = (r, -1)) := by
  cases t with
  | nil => left; exact ⟨rfl, by intro c r h; cases h⟩
  | cons c r =>
    by_cases h1 : c = '+'
    · right; left; exact ⟨r, by rw [h1], by simp [splitSign, h1]⟩
    · by_cases h2 : c = '-'
      · right; right; exact ⟨r, by rw [h2], by simp [splitSign, h1, h2]⟩
      · left
        refine ⟨by simp [splitSign, h1, h2], ?_⟩
        intro c2 r2 he
        injection he with hc hr
        subst hc
        exact ⟨h1, h2⟩

lemma takeWhile_digit_all_sp {w : List Char} (h : w.all isPySpace = true) :
    w.takeWhile Char.isDigit = [] := by
  cases w with
  | nil => rfl
  | cons c r =>
    have hc : isPySpace c = true := by
      simp only [List.all_cons, Bool.and_eq_true] at h
      exact h.1
    exact List.takeWhile_cons_of_neg (by simp [space_not_digit hc])

lemma dropWhile_digit_all_sp {w : List Char} (h : w.all isPySpace = true) :
    w.dropWhile Char.isDigit = w := by
  cases w with
  | nil => rfl
  | cons c r =>
    have hc : isPySpace c = true := by
      simp only [List.all_cons, Bool.and_eq_true] at h
      exact h.1
    exact List.dropWhile_cons_of_neg (by simp [space_not_digit hc])

lemma strip_decomp (l : List Char) :
    ∃ w2, l.dropWhile isPySpace = stripList l ++ w2 ∧ w2.all isPySpace = true := by
  refine ⟨((l.dropWhile isPySpace).reverse.takeWhile isPySpace).reverse, ?_, ?_⟩
  · have h1 := List.takeWhile_append_dropWhile isPySpace (l.dropWhile isPySpace).reverse
    have h2 := congrArg List.reverse h1
    rw [List.reverse_append, List.reverse_reverse] at h2
    exact h2.symm
  · rw [List.all_reverse]
    exact List.all_eq_true.2 (fun a ha => List.mem_takeWhile_imp ha)

lemma exists_rev_head {ds : List Char} (hne : ds ≠ []) (hall : ds.all Char.isDigit = true) :
    ∃ c cs, ds.reverse = c :: cs ∧ c.isDigit = true := by
  cases hr : ds.reverse with
  | nil => exact absurd (List.reverse_eq_nil_iff.1 hr) hne
  | cons c cs =>
    refine ⟨c, cs, rfl, ?_⟩
    have hm : c ∈ ds.reverse := by rw [hr]; exact List.mem_cons_self _ _
    exact List.all_eq_true.1 hall c (List.mem_reverse.1 hm)

lemma pyInt_sign_digits (ds : List Char) (hne : ds ≠ []) (hall : ds.all Char.isDigit = true) :
    pyInt? ds = some (digitsVal ds)
    ∧ pyInt? ('+' :: ds) = some (digitsVal ds)
    ∧ pyInt? ('-' :: ds) = some (-(digitsVal ds)) := by
  obtain ⟨c0, cs0, hds⟩ : ∃ c0 cs0, ds = c0 :: cs0 := by
    cases ds with
    | nil => exact absurd rfl hne
    | cons a b => exact ⟨a, b, rfl⟩
  have hc0 : c0.isDigit = true := by
    have h2 := hall
    rw [hds] at h2
    simp only [List.all_cons, Bool.and_eq_true] at h2
    exact h2.1
  have hsplit : splitSign ds = (ds, 1) := by
    rw [hds]
    simp [splitSign, digit_ne_plus hc0, digit_ne_minus hc0]
  have hnemp : ds.isEmpty = false := by
    rw [hds]; rfl
  refine ⟨?_, ?_, ?_⟩
  · unfold pyInt?
    rw [hsplit]
    simp [hnemp, hall]
  · unfold pyInt?
    simp [splitSign, hnemp, hall]
  · unfold pyInt?
    simp [splitSign, hnemp, hall]

lemma strip_of_parts (l pre ds rest : List Char)
    (hd1 : l.dropWhile isPySpace = pre ++ (ds ++ rest))
    (hne : ds ≠ []) (hall : ds.all Char.isDigit = true)
    (hrest : rest.all isPySpace = true) :
    stripList l = pre ++ ds := by
  obtain ⟨c, cs, hrev, hcdig⟩ := exists_rev_head hne hall
  show ((l.dropWhile isPySpace).reverse.dropWhile isPySpace).reverse = pre ++ ds
  rw [hd1, List.reverse_append, List.reverse_append, List.append_assoc]
  rw [List.dropWhile_append_of_pos
    (fun a ha => List.all_eq_true.1 hrest a (List.mem_reverse.1 ha))]
  have hkeep : (ds.reverse ++ pre.reverse).dropWhile isPySpace
      = ds.reverse ++ pre.reverse := by
    rw [hrev, List.cons_append]
    exact List.dropWhile_cons_of_neg (by simp [digit_not_space hcdig])
  rw [hkeep, List.reverse_append, List.reverse_reverse, List.reverse_reverse]

lemma scan_of_parts (l pre ds rest : List Char)
    (hd1 : l.dropWhile isPySpace = pre ++ (ds ++ rest))
    (hpre : pre = [] ∨ pre = ['+'] ∨ pre = ['-'])
    (hne : ds ≠ []) (hall : ds.all Char.isDigit = true)
    (hrest : rest.all isPySpace = true) :
    scanMatches l = true
    ∧ scanValue l = (if pre = ['-'] then (-1 : Int) else 1) * digitsVal ds := by
  obtain ⟨c0, cs0, hds⟩ : ∃ c0 cs0, ds = c0 :: cs0 := by
    cases ds with
    | nil => exact absurd rfl hne
    | cons a b => exact ⟨a, b, rfl⟩
  have hc0 : c0.isDigit = true := by
    have h2 := hall
    rw [hds] at h2
    simp only [List.all_cons, Bool.and_eq_true] at h2
    exact h2.1
  have hsplit : splitSign (pre ++ (ds ++ rest))
      = (ds ++ rest, if pre = ['-'] then (-1 : Int) else 1) := by
    rcases hpre with hp | hp | hp <;> subst hp
    · rw [List.nil_append, hds, List.cons_append]
      simp [splitSign, digit_ne_plus hc0, digit_ne_minus hc0, hds]
    · simp [splitSign]
    · simp [splitSign]
  have htake : (ds ++ rest).takeWhile Char.isDigit = ds := by
    rw [List.takeWhile_append_of_pos (fun a ha => List.all_eq_true.1 hall a ha),
      takeWhile_digit_all_sp hrest, List.append_nil]
  have hdrop : (ds ++ rest).dropWhile Char.isDigit = rest := by
    rw [List.dropWhile_append_of_pos (fun a ha => List.all_eq_true.1 hall a ha),
      dropWhile_digit_all_sp hrest]
  constructor
  · unfold scanMatches
    rw [hd1, hsplit]
    dsimp only
    rw [htake, hdrop]
    simp [hds, hrest]
  · unfold scanValue
    rw [hd1, hsplit]
    dsimp only
    rw [htake]

lemma pyInt_strip_of_scan (l : List Char) (hm : scanMatches l = true) :
    pyInt? (stripList l) = some (scanValue l) := by
  unfold scanMatches at hm
  simp only [Bool.and_eq_true, Bool.not_eq_true', List.isEmpty_eq_false] at hm
  obtain ⟨hne, hrest⟩ := hm
  rcases splitSign_cases (l.dropWhile isPySpace) with ⟨hsp, _⟩ | ⟨r, hd1, hsp⟩ | ⟨r, hd1, hsp⟩ <;>
    rw [hsp] at hne hrest <;> dsimp only at hne hrest
  · have hall : (List.takeWhile Char.isDigit (l.dropWhile isPySpace)).all Char.isDigit = true :=
      List.all_eq_true.2 (fun a ha => List.mem_takeWhile_imp ha)
    have hparts : l.dropWhile isPySpace
        = [] ++ (List.takeWhile Char.isDigit (l.dropWhile isPySpace)
            ++ List.dropWhile Char.isDigit (l.dropWhile isPySpace)) := by
      rw [List.nil_append, List.takeWhile_append_dropWhile]
    have hstrip := strip_of_parts l [] _ _ hparts hne hall hrest
    have hscan := scan_of_parts l [] _ _ hparts (by left; rfl) hne hall hrest
    rw [List.nil_append] at hstrip
    rw [hstrip, hscan.2]
    simp [(pyInt_sign_digits _ hne hall).1]
  · have hall : (List.takeWhile Char.isDigit r).all Char.isDigit = true :=
      List.all_eq_true.2 (fun a ha => List.mem_takeWhile_imp ha)
    have hparts : l.dropWhile isPySpace
        = ['+'] ++ (List.takeWhile Char.isDigit r ++ List.dropWhile Char.isDigit r) := by
      rw [hd1, List.takeWhile_append_dropWhile]
      rfl
    have hstrip := strip_of_parts l ['+'] _ _ hparts hne hall hrest
    have hscan := scan_of_parts l ['+'] _ _ hparts (by right; left; rfl) hne hall hrest
    rw [hstrip, hscan.2]
    have hpd := (pyInt_sign_digits _ hne hall).2.1
    rw [List.cons_append, List.nil_append] at hstrip ⊢
    rw [hpd]
    simp
  · have hall : (List.takeWhile Char.isDigit r).all Char.isDigit = true :=
      List.all_eq_true.2 (fun a ha => List.mem_takeWhile_imp ha)
    have hparts : l.dropWhile isPySpace
        = ['-'] ++ (List.takeWhile Char.isDigit r ++ List.dropWhile Char.isDigit r) := by
      rw [hd1, List.takeWhile_append_dropWhile]
      rfl
    have hstrip := strip_of_parts l ['-'] _ _ hparts hne hall hrest
    have hscan := scan_of_parts l ['-'] _ _ hparts (by right; right; rfl) hne hall hrest
    rw [hstrip, hscan.2]
    have hpd := (pyInt_sign_digits _ hne hall).2.2
    rw [List.cons_append, List.nil_append] at hstrip ⊢
    rw [hpd]
    simp

lemma scan_of_pyInt (l : List Char) (v : Int) (hp : pyInt? (stripList l) = some v) :
    scanMatches l = true ∧ scanValue l = v := by
  obtain ⟨w2, hw2, hallw2⟩ := strip_decomp l
  unfold pyInt? at hp
  rcases splitSign_cases (stripList l) with ⟨hsp, _⟩ | ⟨r, ht, hsp⟩ | ⟨r, ht, hsp⟩ <;>
    rw [hsp] at hp <;> dsimp only at hp <;> split at hp <;>
    rename_i hcond <;> simp only [Option.some.injEq, reduceCtorEq] at hp <;>
    simp only [Bool.and_eq_true, Bool.not_eq_true', List.isEmpty_eq_false] at hcond
  · obtain ⟨hne, hall⟩ := hcond
    have hparts : l.dropWhile isPySpace = [] ++ (stripList l ++ w2) := by
      rw [List.nil_append, hw2]
    have hscan := scan_of_parts l [] _ _ hparts (by left; rfl) hne hall hallw2
    refine ⟨hscan.1, ?_⟩
    rw [hscan.2, ← hp]
    simp
  · obtain ⟨hne, hall⟩ := hcond
    have hparts : l.dropWhile isPySpace = ['+'] ++ (r ++ w2) := by
      rw [hw2, ht]
      rfl
    have hscan := scan_of_parts l ['+'] _ _ hparts (by right; left; rfl) hne hall hallw2
    refine ⟨hscan.1, ?_⟩
    rw [hscan.2, ← hp]
    simp
  · obtain ⟨hne, hall⟩ := hcond
    have hparts : l.dropWhile isPySpace = ['-'] ++ (r ++ w2) := by
      rw [hw2, ht]
      rfl
    have hscan := scan_of_parts l ['-'] _ _ hparts (by right; right; rfl) hne hall hallw2
    refine ⟨hscan.1, ?_⟩
    rw [hscan.2, ← hp]
    simp

lemma substr_mid (a b m : String) : m.data <:+: (a ++ m ++ b).data :=
  ⟨a.data, b.data, by simp [String.data_append]⟩

/-! ## Lemmas: dispatcher branches -/

lemma executeQueryTexts_ne (ts : String) (query : Json)
    (result : Except PromError Json) : executeQueryTexts ts query result ≠ [] := by
  unfold executeQueryTexts
  repeat' split
  all_goals simp

lemma executeRangeQueryTexts_ne (ts : String) (query start endv step : Json)
    (result : Except PromError Json) :
    executeRangeQueryTexts ts query start endv step result ≠ [] := by
  unfold executeRangeQueryTexts
  repeat' split
  all_goals simp

lemma listMetricsTexts_ne (ts : String) (result : Except PromError Json) :
    listMetricsTexts ts result ≠ [] := by
  unfold listMetricsTexts
  repeat' split
  all_goals simp

lemma getMetricMetadataTexts_ne (ts : String) (metric : Json)
    (result : Except PromError Json) :
    getMetricMetadataTexts ts metric result ≠ [] := by
  unfold getMetricMetadataTexts
  repeat' split
  all_goals simp

lemma getTargetsTexts_ne (ts : String) (result : Except PromError Json) :
    getTargetsTexts ts result ≠ [] := by
  unfold getTargetsTexts
  repeat' split
  all_goals simp

lemma executeQueryBranch_texts_ne (config : PrometheusConfig) (net : NetResult)
    (ts : String) (args : Args) : (executeQueryBranch config net ts args).texts ≠ [] := by
  unfold executeQueryBranch
  repeat' split
  all_goals simp [executeQueryTexts_ne]

lemma executeRangeQueryBranch_texts_ne (config : PrometheusConfig) (net : NetResult)
    (ts : String) (args : Args) :
    (executeRangeQueryBranch config net ts args).texts ≠ [] := by
  unfold executeRangeQueryBranch
  repeat' split
  all_goals simp [executeRangeQueryTexts_ne]

lemma getMetricMetadataBranch_texts_ne (config : PrometheusConfig) (net : NetResult)
    (ts : String) (args : Args) :
    (getMetricMetadataBranch config net ts args).texts ≠ [] := by
  unfold getMetricMetadataBranch
  repeat' split
  all_goals simp [getMetricMetadataTexts_ne]

lemma make_result_isOk_indep (c c2 : PrometheusConfig) (endpoint : String)
    (params : Option Params) (net : NetResult) (h : c.url ≠ "") (h2 : c2.url ≠ "") :
    isOkE (make_prometheus_request c endpoint params net).result
      = isOkE (make_prometheus_request c2 endpoint params net).result := by
  simp only [make_prometheus_request, h, h2, if_neg]
  cases net <;> rfl

lemma health_check_config_fields (config : PrometheusConfig) (net : NetResult)
    (timeStr : String) :
    (health_check config net timeStr).urlConfigured = prometheusUrlConfigured config
    ∧ (health_check config net timeStr).authConfigured = authenticationConfigured config
    ∧ (health_check config net timeStr).orgConfigured = orgIdConfigured config := by
  unfold health_check
  dsimp only
  split
  · split <;> exact ⟨rfl, rfl, rfl⟩
  · exact ⟨rfl, rfl, rfl⟩

/-! ## The claims -/

/-- Claim C1: `validate_limit_parameter` is a pure total function:
`None` maps to `None`; any integer (zero and negatives included) is
returned unchanged; a string matching `^\s*[+-]?\d+\s*$` returns
`int(s.strip())` (here: the integer the signed digit run denotes); every
other string fails with an InvalidParameter error whose message contains
the literal original (unstripped) string and the text
"must be a valid integer".  The function is modelled from the spec since
its code is absent from `src/` (only its tests are present). -/
theorem C1_validate_limit_parameter (s : String) (n : Int) :
    validate_limit_parameter .none = .ok Option.none
    ∧ validate_limit_parameter (.int n) = .ok (some n)
    ∧ (matchesLimitPattern s = true →
        validate_limit_parameter (.str s) = .ok (some (limitPatternValue s))
        ∧ pyInt? (pyStrip s).data = some (limitPatternValue s))
    ∧ (matchesLimitPattern s = false →
        validate_limit_parameter (.str s)
          = .error ("Invalid limit value \x27" ++ s ++ "\x27: must be a valid integer")
        ∧ s.data <:+: ("Invalid limit value \x27" ++ s
            ++ "\x27: must be a valid integer").data
        ∧ ("must be a valid integer").data <:+: ("Invalid limit value \x27" ++ s
            ++ "\x27: must be a valid integer").data) := by
  refine ⟨rfl, rfl, ?_, ?_⟩
  · intro hm
    have h := pyInt_strip_of_scan s.data hm
    constructor
    · simp only [validate_limit_parameter, h]
      rfl
    · exact h
  · intro hm
    have h : pyInt? (stripList s.data) = none := by
      cases hv : pyInt? (stripList s.data) with
      | none => rfl
      | some v =>
        have hsc := (scan_of_pyInt s.data v hv).1
        rw [matchesLimitPattern] at hm
        rw [hsc] at hm
        cases hm
    refine ⟨?_, ?_, ?_⟩
    · simp only [validate_limit_parameter, h]
    · exact substr_mid "Invalid limit value \x27" "\x27: must be a valid integer" s
    · have hms : ("Invalid limit value \x27" ++ s ++ "\x27: must be a valid integer")
          = ("Invalid limit value \x27" ++ s ++ "\x27: ") ++ "must be a valid integer" ++ "" := by
        have h1 : ("\x27: must be a valid integer" : String)
            = "\x27: " ++ "must be a valid integer" := rfl
        rw [String.append_empty, h1, ← String.append_assoc]
      rw [hms]
      exact substr_mid ("Invalid limit value \x27" ++ s ++ "\x27: ") "" "must be a valid integer"

/-- Concrete instance of C1: `" +42 "` parses to `42`; `"12 34"` is
rejected with the documented message. -/
theorem C1_validate_limit_parameter_witness :
    matchesLimitPattern " +42 " = true
    ∧ validate_limit_parameter (.str " +42 ") = .ok (some 42)
    ∧ matchesLimitPattern "12 34" = false
    ∧ validate_limit_parameter (.str "12 34")
        = .error "Invalid limit value \x2712 34\x27: must be a valid integer" := by
  refine ⟨by decide, ?_, by decide, ?_⟩
  · have h := ((C1_validate_limit_parameter " +42 " 0).2.2.1 (by decide)).1
    have hv : limitPatternValue " +42 " = 42 := by decide
    rw [hv] at h
    exact h
  · exact ((C1_validate_limit_parameter "12 34" 0).2.2.2 (by decide)).1

/-- Claim C2: authentication precedence.  Whenever a bearer token is set,
the outbound request carries the `Authorization: Bearer <token>` header and
no basic-auth credentials, even if username and password are also set; with
no token but both username and password, basic auth is used and no
`Authorization` header is sent; otherwise neither is sent. -/
theorem C2_auth_precedence (config : PrometheusConfig) (endpoint : String)
    (params : Option Params) (net : NetResult) (req : OutboundRequest)
    (hreq : (make_prometheus_request config endpoint params net).request = some req) :
    (config.token ≠ "" →
      ("Authorization", "Bearer " ++ config.token) ∈ req.headers ∧ req.basicAuth = none)
    ∧ (config.token = "" → config.username ≠ "" → config.password ≠ "" →
      req.basicAuth = some (config.username, config.password)
        ∧ ∀ v, ("Authorization", v) ∉ req.headers)
    ∧ (config.token = "" → (config.username = "" ∨ config.password = "") →
      req.basicAuth = none ∧ ∀ v, ("Authorization", v) ∉ req.headers) := by
  by_cases hurl : config.url = ""
  · simp [make_prometheus_request, hurl] at hreq
  · by_cases htok : config.token = "" <;>
    by_cases husr : config.username = "" <;>
    by_cases hpwd : config.password = "" <;>
    by_cases horg : config.org_id = "" <;>
    · simp [make_prometheus_request, get_prometheus_auth, hurl, htok, husr, hpwd, horg] at hreq
      subst hreq
      simp_all

/-- Concrete instance of C2: with token and basic credentials both set the
request carries only the bearer header; with basic credentials only, it
carries basic auth and no `Authorization` header. -/
theorem C2_auth_precedence_witness :
    (("Authorization", "Bearer " ++ cfgTok.token) ∈ reqTok.headers
      ∧ reqTok.basicAuth = none)
    ∧ (reqBasic.basicAuth = some (cfgBasic.username, cfgBasic.password)
      ∧ ("Authorization", "Bearer x") ∉ reqBasic.headers) := by
  constructor
  · exact (C2_auth_precedence cfgTok "query" none okNet reqTok rfl).1 (by decide)
  · have h := (C2_auth_precedence cfgBasic "query" none okNet reqBasic rfl).2.1
      (by decide) (by decide) (by decide)
    exact ⟨h.1, h.2 "Bearer x"⟩

/-- Claim C3: with an empty base URL, `make_prometheus_request` fails with
the configuration error before any network attempt: no request is built and
no network call is made, for every endpoint and parameter mapping. -/
theorem C3_empty_url_no_network (config : PrometheusConfig) (endpoint : String)
    (params : Option Params) (net : NetResult) (h : config.url = "") :
    (make_prometheus_request config endpoint params net).result
        = .error .configMissing
    ∧ (make_prometheus_request config endpoint params net).attempted = false
    ∧ (make_prometheus_request config endpoint params net).request = none
    ∧ PromError.configMissing.message
        = "Prometheus configuration is missing. Please set PROMETHEUS_URL environment variable." := by
  refine ⟨?_, ?_, ?_, rfl⟩ <;> simp [make_prometheus_request, h]

/-- Concrete instance of C3 at the empty-URL configuration. -/
theorem C3_empty_url_no_network_witness :
    (make_prometheus_request cfgNoUrl "query" none NetResult.timeout).result
        = .error .configMissing
    ∧ (make_prometheus_request cfgNoUrl "query" none NetResult.timeout).attempted = false
    ∧ (make_prometheus_request cfgNoUrl "query" none NetResult.timeout).request = none := by
  have h := C3_empty_url_no_network cfgNoUrl "query" none NetResult.timeout rfl
  exact ⟨h.1, h.2.1, h.2.2.1⟩

/-- Claim C4 falls on the code at the concrete body
`{"status": "success"}`: the status field is `"success"`, yet
`make_prometheus_request` raises (the `KeyError` on the missing `data`
field becomes the wrapped unexpected error), so it is not true that an
HTTP-successful body raises iff its status is not `"success"`. -/
theorem C4_counterexample :
    successNoData.getField "status" = some (Json.str "success")
    ∧ (make_prometheus_request cfgPlain "query" none
        (.response 200 (.ok successNoData))).result
      = .error (.unexpected "\x27data\x27") :=
  ⟨rfl, rfl⟩

/-- Claim C4 (amended): for every HTTP-successful JSON body, when a status
field is present and differs from `"success"` the call raises an error
that still carries the envelope's error message (or "Unknown error" when
no error field is present), but re-wrapped: the `ValueError` raised inside
the `try` suite is caught by the generic `except Exception` handler, so
the observed message is `"Unexpected error: Prometheus API error: "`
followed by the envelope's error message; when status is `"success"` and a
data field is present the call returns exactly that data field; when the
data field is absent (or the status field itself is absent) it raises the
wrapped unexpected error instead. -/
theorem C4_envelope_amended (config : PrometheusConfig) (endpoint : String)
    (params : Option Params) (body : Json) (h : config.url ≠ "") :
    (∀ st, body.getField "status" = some st → st ≠ Json.str "success" →
      (make_prometheus_request config endpoint params (.response 200 (.ok body))).result
        = .error (.unexpected ("Prometheus API error: "
            ++ (match body.getField "error" with
                | some e => pyStr e
                | none => "Unknown error"))))
    ∧ (∀ m, (PromError.unexpected ("Prometheus API error: " ++ m)).message
          = "Unexpected error: Prometheus API error: " ++ m
        ∧ m.data <:+: (PromError.unexpected ("Prometheus API error: " ++ m)).message.data)
    ∧ (∀ d, body.getField "status" = some (Json.str "success") →
        body.getField "data" = some d →
        (make_prometheus_request config endpoint params (.response 200 (.ok body))).result
          = .ok d)
    ∧ (body.getField "status" = some (Json.str "success") →
        body.getField "data" = none →
        (make_prometheus_request config endpoint params (.response 200 (.ok body))).result
          = .error (.unexpected (keyErrStr "data")))
    ∧ (body.getField "status" = none →
        (make_prometheus_request config endpoint params (.response 200 (.ok body))).result
          = .error (.unexpected (keyErrStr "status"))) := by
  have hred : (make_prometheus_request config endpoint params
      (.response 200 (.ok body))).result = handleEnvelope body := by
    simp [make_prometheus_request, h]
  rw [hred]
  refine ⟨?_, ?_, ?_, ?_, ?_⟩
  · intro st hst hne
    have hs : st.eqStr "success" = false := by
      cases st <;> simp [Json.eqStr]
      intro he
      exact hne (by rw [he])
    simp [handleEnvelope, hst, hs]
  · intro m
    have hmsg : ("Unexpected error: " : String) ++ ("Prometheus API error: " ++ m)
        = "Unexpected error: Prometheus API error: " ++ m := by
      rw [← String.append_assoc]
      rfl
    constructor
    · show ("Unexpected error: " : String) ++ ("Prometheus API error: " ++ m)
          = "Unexpected error: Prometheus API error: " ++ m
      exact hmsg
    · show m.data <:+: (("Unexpected error: " : String)
          ++ ("Prometheus API error: " ++ m)).data
      rw [hmsg]
      have hm : ("Unexpected error: Prometheus API error: " ++ m)
          = "Unexpected error: Prometheus API error: " ++ m ++ "" := by
        rw [String.append_empty]
      rw [hm]
      exact substr_mid "Unexpected error: Prometheus API error: " "" m
  · intro d hst hd
    simp [handleEnvelope, hst, hd, Json.eqStr]
  · intro hst hd
    simp [handleEnvelope, hst, hd, Json.eqStr]
  · intro hst
    simp [handleEnvelope, hst]

/-- Concrete instance of the amended C4: an error envelope raises with the
re-wrapped message embedding "bad query"; a success envelope returns its
data field. -/
theorem C4_envelope_amended_witness :
    (make_prometheus_request cfgPlain "query" none
        (.response 200 (.ok errEnvelope))).result
      = .error (.unexpected "Prometheus API error: bad query")
    ∧ (PromError.unexpected "Prometheus API error: bad query").message
      = "Unexpected error: Prometheus API error: bad query"
    ∧ (make_prometheus_request cfgPlain "query" none
        (.response 200 (.ok okEnvelope))).result
      = .ok (Json.arr [Json.str "up"]) := by
  refine ⟨?_, rfl, ?_⟩
  · exact (C4_envelope_amended cfgPlain "query" none errEnvelope (by decide)).1
      (Json.str "error") rfl (by simp)
  · exact (C4_envelope_amended cfgPlain "query" none okEnvelope (by decide)).2.2.1
      (Json.arr [Json.str "up"]) rfl rfl

/-- Claim C5 fails on the code: timeout, connection failure, HTTP 401,
HTTP 403 and other HTTP error statuses each map deterministically to their
own kind with the exact source message, but a malformed (non-JSON) body
does NOT yield "invalid JSON response" — `response.json()` raises
`requests.exceptions.JSONDecodeError`, a `RequestException` subclass, so
the line-482 handler catches it first and the call raises
`"Request failed: {msg}"`, exactly what a generic request exception with
the same message yields; the dedicated invalid-JSON handler at line 485
(whose message the claim and the spec quote) is unreachable, so the
malformed-body mode collapses into the generic request-failure kind. -/
theorem C5_failure_messages (config : PrometheusConfig) (endpoint : String)
    (params : Option Params) (h : config.url ≠ "") (status : Nat)
    (hs : 400 ≤ status) (h401 : status ≠ 401) (h403 : status ≠ 403)
    (body : Except String Json) (m : String) :
    ((make_prometheus_request config endpoint params .timeout).result
        = .error (.timeout config.url)
      ∧ (PromError.timeout config.url).message
        = "Prometheus server at " ++ config.url ++ " is not responding (timeout after 30s)")
    ∧ ((make_prometheus_request config endpoint params .connectionError).result
        = .error (.connectionError config.url)
      ∧ (PromError.connectionError config.url).message
        = "Cannot connect to Prometheus server at " ++ config.url)
    ∧ ((make_prometheus_request config endpoint params (.response 401 body)).result
        = .error .authFailed
      ∧ PromError.authFailed.message
        = "Authentication failed. Please check your Prometheus credentials.")
    ∧ ((make_prometheus_request config endpoint params (.response 403 body)).result
        = .error .forbidden
      ∧ PromError.forbidden.message
        = "Access forbidden. Please check your Prometheus permissions.")
    ∧ ((make_prometheus_request config endpoint params (.response status body)).result
        = .error (.httpError status)
      ∧ (PromError.httpError status).message
        = "HTTP " ++ toString status ++ " error from Prometheus server")
    ∧ ((make_prometheus_request config endpoint params (.response 200 (.error m))).result
        = .error (.requestFailed m)
      ∧ (PromError.requestFailed m).message = "Request failed: " ++ m
      ∧ (make_prometheus_request config endpoint params (.otherRequestException m)).result
        = .error (.requestFailed m)
      ∧ (PromError.invalidJson m).message
        = "Invalid JSON response from Prometheus: " ++ m
      ∧ PromError.requestFailed m ≠ PromError.invalidJson m)
    ∧ List.Pairwise (fun a b => a ≠ b)
        [PromError.timeout config.url, PromError.connectionError config.url,
          PromError.authFailed, PromError.forbidden, PromError.httpError status,
          PromError.requestFailed m] := by
  refine ⟨⟨?_, rfl⟩, ⟨?_, rfl⟩, ⟨?_, rfl⟩, ⟨?_, rfl⟩, ⟨?_, rfl⟩,
    ⟨?_, rfl, ?_, rfl, ?_⟩, ?_⟩ <;>
    simp [make_prometheus_request, h, hs, h401, h403]

/-- Concrete instance of C5 at status 500 and a body that is not JSON:
the malformed body yields the generic request-failure message, not the
unreachable invalid-JSON one. -/
theorem C5_failure_messages_witness :
    (make_prometheus_request cfgPlain "query" none .timeout).result
        = .error (.timeout "http://prom")
    ∧ (make_prometheus_request cfgPlain "query" none
        (.response 500 (.ok okEnvelope))).result = .error (.httpError 500)
    ∧ (make_prometheus_request cfgPlain "query" none
        (.response 200 (.error "boom"))).result = .error (.requestFailed "boom")
    ∧ (PromError.requestFailed "boom").message = "Request failed: boom"
    ∧ (make_prometheus_request cfgPlain "query" none
        (.otherRequestException "boom")).result = .error (.requestFailed "boom") := by
  have h := C5_failure_messages cfgPlain "query" none (by decide) 500
    (by decide) (by decide) (by decide) (.ok okEnvelope) "boom"
  exact ⟨h.1.1, h.2.2.2.2.1.1, h.2.2.2.2.2.1.1, h.2.2.2.2.2.1.2.1,
    h.2.2.2.2.2.1.2.2.1⟩

/-- Claim C6 fails on the code (the repository's own tests expect nine
tools): the registry advertises exactly six tools — health_check,
execute_query, execute_range_query, list_metrics, get_metric_metadata,
get_targets — so list_labels, get_label_values and find_series are absent
and dispatching `list_labels` fails with the unknown-tool error, while
every advertised name does have a dispatcher branch. -/
theorem C6_six_tools_only :
    toolNames = ["health_check", "execute_query", "execute_range_query",
      "list_metrics", "get_metric_metadata", "get_targets"]
    ∧ "list_labels" ∉ toolNames
    ∧ "get_label_values" ∉ toolNames
    ∧ "find_series" ∉ toolNames
    ∧ call_tool cfgPlain okNet "TS" "TM" "list_labels" []
        = .error "Unknown tool: list_labels"
    ∧ (∀ t ∈ list_tools,
        isOkE (call_tool cfgPlain okNet "TS" "TM" t.name []) = true)
    ∧ (∀ t ∈ list_tools, t.name = "execute_query" →
        t.required = ["query"] ∧ t.optional = ["time"])
    ∧ (∀ t ∈ list_tools, t.name = "execute_range_query" →
        t.required = ["query", "start", "end", "step"]) :=
  ⟨rfl, by decide, by decide, by decide, rfl, by decide, by decide, by decide⟩

/-- Claim C7: the dispatcher catches every error raised inside a
registered tool's handler and returns a (nonempty) tool-result-shaped
failure message instead of raising, for every argument mapping and every
network outcome; a name outside the registered set fails hard with an
error identifying the unrecognized name. -/
theorem C7_dispatch_boundary (config : PrometheusConfig) (net : NetResult)
    (ts timeStr name : String) (args : Args) :
    (name ∉ toolNames →
      call_tool config net ts timeStr name args = .error ("Unknown tool: " ++ name))
    ∧ (name ∈ toolNames →
      ∃ out, call_tool config net ts timeStr name args = .ok out ∧ out.texts ≠ []) := by
  constructor
  · intro h
    have h1 : name ≠ "health_check" := fun e => h (by rw [e]; decide)
    have h2 : name ≠ "execute_query" := fun e => h (by rw [e]; decide)
    have h3 : name ≠ "execute_range_query" := fun e => h (by rw [e]; decide)
    have h4 : name ≠ "list_metrics" := fun e => h (by rw [e]; decide)
    have h5 : name ≠ "get_metric_metadata" := fun e => h (by rw [e]; decide)
    have h6 : name ≠ "get_targets" := fun e => h (by rw [e]; decide)
    simp [call_tool, h1, h2, h3, h4, h5, h6]
  · intro h
    simp only [toolNames, list_tools, List.map, List.mem_cons, List.not_mem_nil,
      or_false] at h
    rcases h with h | h | h | h | h | h <;> subst h
    · exact ⟨{ texts := healthTexts (health_check config net timeStr) ts,
               request := (health_check config net timeStr).request },
        by simp [call_tool], by simp [healthTexts]⟩
    · exact ⟨executeQueryBranch config net ts args, by simp [call_tool],
        executeQueryBranch_texts_ne config net ts args⟩
    · exact ⟨executeRangeQueryBranch config net ts args, by simp [call_tool],
        executeRangeQueryBranch_texts_ne config net ts args⟩
    · exact ⟨listMetricsBranch config net ts, by simp [call_tool],
        listMetricsTexts_ne ts _⟩
    · exact ⟨getMetricMetadataBranch config net ts args, by simp [call_tool],
        getMetricMetadataBranch_texts_ne config net ts args⟩
    · exact ⟨getTargetsBranch config net ts, by simp [call_tool],
        getTargetsTexts_ne ts _⟩

/-- Concrete instance of C7: a bogus name fails hard naming itself; a
registered tool call with bad arguments still returns a result. -/
theorem C7_dispatch_boundary_witness :
    call_tool cfgPlain NetResult.timeout "TS" "TM" "bogus" []
        = .error "Unknown tool: bogus"
    ∧ ∃ out, call_tool cfgPlain NetResult.timeout "TS" "TM" "execute_query" []
        = .ok out ∧ out.texts ≠ [] := by
  constructor
  · exact (C7_dispatch_boundary cfgPlain NetResult.timeout "TS" "TM" "bogus" []).1
      (by decide)
  · exact (C7_dispatch_boundary cfgPlain NetResult.timeout "TS" "TM"
      "execute_query" []).2 (by decide)

/-- Claim C8: health_check never fails the dispatch; with no URL it
reports status "unhealthy" with the prometheus check "not_configured" and
attempts no network call; with a URL but a failing probe it reports
"degraded" with the prometheus check "unhealthy" instead of raising; its
output always carries the three configuration-presence booleans, and the
output is identical for any two configurations with the same presence
booleans — the secret values themselves never appear. -/
theorem C8_health_check (config : PrometheusConfig) (net : NetResult)
    (ts timeStr : String) (args : Args) :
    (call_tool config net ts timeStr "health_check" args
      = .ok { texts := healthTexts (health_check config net timeStr) ts,
              request := (health_check config net timeStr).request })
    ∧ (config.url = "" →
        (health_check config net timeStr).status = "unhealthy"
        ∧ (health_check config net timeStr).checksPrometheus = "not_configured"
        ∧ (health_check config net timeStr).attempted = false
        ∧ (health_check config net timeStr).request = none)
    ∧ (config.url ≠ "" →
        isOkE (make_prometheus_request config "query"
          (some [("query", Json.str "up"), ("time", Json.str timeStr)]) net).result
          = false →
        (health_check config net timeStr).status = "degraded"
        ∧ (health_check config net timeStr).checksPrometheus = "unhealthy")
    ∧ ((healthTexts (health_check config net timeStr) ts).get? 1
        = some ("Prometheus URL configured: " ++ pyBool (prometheusUrlConfigured config)
            ++ "\nAuthentication configured: " ++ pyBool (authenticationConfigured config)
            ++ "\nOrg ID configured: " ++ pyBool (orgIdConfigured config)))
    ∧ (∀ cfg2 : PrometheusConfig,
        prometheusUrlConfigured cfg2 = prometheusUrlConfigured config →
        authenticationConfigured cfg2 = authenticationConfigured config →
        orgIdConfigured cfg2 = orgIdConfigured config →
        healthTexts (health_check cfg2 net timeStr) ts
          = healthTexts (health_check config net timeStr) ts) := by
  refine ⟨rfl, ?_, ?_, ?_, ?_⟩
  · intro hurl
    have hc : prometheusUrlConfigured config = false := by
      simp [prometheusUrlConfigured, hurl]
    unfold health_check
    dsimp only
    rw [hc]
    exact ⟨rfl, rfl, rfl, rfl⟩
  · intro hurl hfail
    have hp : prometheusUrlConfigured config = true := by
      simp [prometheusUrlConfigured, hurl]
    unfold health_check
    dsimp only
    rw [hp]
    simp only [if_true]
    cases hr : (make_prometheus_request config "query"
        (some [("query", Json.str "up"), ("time", Json.str timeStr)]) net).result
    · exact ⟨rfl, rfl⟩
    · rw [hr] at hfail; simp [isOkE] at hfail
  · obtain ⟨h1, h2, h3⟩ := health_check_config_fields config net timeStr
    simp [healthTexts, h1, h2, h3]
  · intro cfg2 hu ha ho
    by_cases hurl : config.url = ""
    · have hc : prometheusUrlConfigured config = false := by
        simp [prometheusUrlConfigured, hurl]
      have hc2 : prometheusUrlConfigured cfg2 = false := by rw [hu, hc]
      unfold health_check
      dsimp only
      rw [hc, hc2]
      simp [healthTexts, hu, ha, ho]
    · have hc : prometheusUrlConfigured config = true := by
        simp [prometheusUrlConfigured, hurl]
      have hc2 : prometheusUrlConfigured cfg2 = true := by rw [hu, hc]
      have hurl2 : cfg2.url ≠ "" := by
        intro he
        simp [prometheusUrlConfigured, he] at hc2
      have hind := make_result_isOk_indep config cfg2 "query"
        (some [("query", Json.str "up"), ("time", Json.str timeStr)]) net hurl hurl2
      unfold health_check
      dsimp only
      rw [hc, hc2]
      simp only [if_true]
      cases hr : (make_prometheus_request config "query"
          (some [("query", Json.str "up"), ("time", Json.str timeStr)]) net).result with
      | error e =>
        cases hr2 : (make_prometheus_request cfg2 "query"
            (some [("query", Json.str "up"), ("time", Json.str timeStr)]) net).result with
        | error e2 => simp [healthTexts, hu, ha, ho]
        | ok d2 => rw [hr, hr2] at hind; simp [isOkE] at hind
      | ok d =>
        cases hr2 : (make_prometheus_request cfg2 "query"
            (some [("query", Json.str "up"), ("time", Json.str timeStr)]) net).result with
        | error e2 => rw [hr, hr2] at hind; simp [isOkE] at hind
        | ok d2 => simp [healthTexts, hu, ha, ho]

/-- Concrete instance of C8: unconfigured URL reports unhealthy with no
network call; configured URL with a timed-out probe reports degraded. -/
theorem C8_health_check_witness :
    ((health_check cfgNoUrl NetResult.timeout "TM").status = "unhealthy"
      ∧ (health_check cfgNoUrl NetResult.timeout "TM").checksPrometheus
        = "not_configured"
      ∧ (health_check cfgNoUrl NetResult.timeout "TM").attempted = false)
    ∧ ((health_check cfgPlain NetResult.timeout "TM").status = "degraded"
      ∧ (health_check cfgPlain NetResult.timeout "TM").checksPrometheus
        = "unhealthy") := by
  constructor
  · have h := (C8_health_check cfgNoUrl NetResult.timeout "TS" "TM" []).2.1 rfl
    exact ⟨h.1, h.2.1, h.2.2.1⟩
  · exact (C8_health_check cfgPlain NetResult.timeout "TS" "TM" []).2.2.1
      (by decide) rfl

/-- Claim C9 fails on the code (the repository's own tests expect
`params={"limit": 2}`): the list_metrics branch never reads its arguments
and always calls endpoint `label/__name__/values` with `params=None`, so a
supplied `limit` argument is silently ignored and never validated. -/
theorem C9_list_metrics_ignores_limit :
    (call_tool cfgPlain okNet "TS" "TM" "list_metrics"
        [("limit", Json.num 2)]).map ToolOutcome.request
      = .ok (some
          { url := "http://prom/api/v1/label/__name__/values",
            params := none,
            headers := [("User-Agent", "prometheus-mcp-server/1.2.11")],
            basicAuth := none })
    ∧ call_tool cfgPlain okNet "TS" "TM" "list_metrics" [("limit", Json.num 2)]
      = call_tool cfgPlain okNet "TS" "TM" "list_metrics" []
    ∧ (∀ t ∈ list_tools, t.name = "list_metrics" →
        t.required = [] ∧ t.optional = []) :=
  ⟨rfl, rfl, by decide⟩

/-- Claim C10: with a non-empty username but empty password and token,
`get_prometheus_auth` yields no credentials at all — the outbound request
has neither an `Authorization` header nor basic auth — while health_check
still reports `authentication_configured` as true, because that flag tests
username-or-token presence. -/
theorem C10_username_without_password (config : PrometheusConfig)
    (endpoint : String) (params : Option Params) (net : NetResult)
    (timeStr : String) (hu : config.username ≠ "") (hp : config.password = "")
    (ht : config.token = "") :
    get_prometheus_auth config = .noAuth
    ∧ (∀ req, (make_prometheus_request config endpoint params net).request = some req →
        req.basicAuth = none ∧ ∀ v, ("Authorization", v) ∉ req.headers)
    ∧ (health_check config net timeStr).authConfigured = true
    ∧ authenticationConfigured config = true := by
  refine ⟨by simp [get_prometheus_auth, ht, hp], ?_, ?_, by simp [authenticationConfigured, hu]⟩
  · intro req hreq
    by_cases hurl : config.url = ""
    · simp [make_prometheus_request, hurl] at hreq
    · by_cases horg : config.org_id = "" <;>
      · simp [make_prometheus_request, get_prometheus_auth, hurl, ht, hp, horg] at hreq
        subst hreq
        simp_all
  · unfold health_check
    dsimp only
    split
    · split <;> simp [authenticationConfigured, hu]
    · simp [authenticationConfigured, hu]

/-- Concrete instance of C10 at a username-only configuration. -/
theorem C10_username_without_password_witness :
    get_prometheus_auth cfgUserOnly = .noAuth
    ∧ reqUserOnly.basicAuth = none
    ∧ ("Authorization", "Bearer x") ∉ reqUserOnly.headers
    ∧ (health_check cfgUserOnly okNet "TM").authConfigured = true := by
  have h := C10_username_without_password cfgUserOnly "query" none okNet "TM"
    (by decide) rfl rfl
  have h2 := h.2.1 reqUserOnly rfl
  exact ⟨h.1, h2.1, h2.2 "Bearer x", h.2.2.1⟩

end PrometheusMcp
